import Mathlib

/-!
# Verification of the News-Summarizer save/feed workflow

Shallow embedding of the parts of `src/app.py` and
`src/services/sentiment_analyzer.py` that the specification's claims are
about: the save-article request handler, the personal-feed query, the
sentiment-analyzer adapter, the `SavedArticle` schema declaration, and the
module-level pandas dataframe mutated by the dashboard handler.

External collaborators (the `dateutil` ISO parser, the transformers
pipeline, the database commit) are passed in as oracles so that theorems
can quantify over their behaviour; calendar datetimes are modelled as
integer timestamps and probability scores as rationals.
-/

/-- ASCII lowercasing of a character, modelling Python `str.lower` /
SQL `ILIKE` case folding on the ASCII range. -/
def lowerChar (c : Char) : Char :=
  if 65 ≤ c.toNat ∧ c.toNat ≤ 90 then Char.ofNat (c.toNat + 32) else c

/-- Lowercasing of a whole string. -/
def lowerStr (s : String) : String := String.mk (s.data.map lowerChar)

/-- `isPrefixL p l` is true when `p` is a leading segment of `l`. -/
def isPrefixL : List Char → List Char → Bool
  | [], _ => true
  | _ :: _, [] => false
  | a :: as, b :: bs => a == b && isPrefixL as bs

/-- `isSubL p l` is true when `p` occurs contiguously inside `l`
(the semantics of SQL `LIKE` with a pattern wrapped in wildcards). -/
def isSubL (p : List Char) : List Char → Bool
  | [] => isPrefixL p []
  | c :: t => isPrefixL p (c :: t) || isSubL p t

/-- Case-insensitive substring test: `ilike field pat` models the SQLAlchemy
filter `field.ilike(f'%\x7bpat\x7d%')` used by `personal_feed`. -/
def ilike (field pat : String) : Bool :=
  isSubL (lowerStr pat).data (lowerStr field).data

/-- Python string slice `s[-n:]`: the last `n` characters, or the whole
string when `s` has fewer than `n` characters.  This is the derived
article-identifier computation `request.form['url'][-15:]` of
`save_article` (src/app.py line 273). -/
def py_slice_last (s : String) (n : Nat) : String :=
  String.mk (s.data.drop (s.data.length - n))

/-- A row of the `saved_article` table (src/app.py lines 55-68).
`published_at` and `added_at` are datetimes, modelled as integer
timestamps; `confidence` is the model probability, modelled as a
rational. The autoincrement `id` column is not modelled: no claim
mentions it. -/
structure SavedArticle where
  user_id : Nat
  article_id : String
  title : String
  description : Option String
  url : Option String
  source : Option String
  published_at : Option Int
  added_at : Int
  sentiment : String
  confidence : ℚ
deriving DecidableEq, Repr

/-- One output record of the transformers text-classification pipeline:
a label and a probability score. -/
structure ModelOutput where
  label : String
  score : ℚ
deriving DecidableEq, Repr

/-- The underlying pipeline call: takes the (already truncated) text and
either returns a list of output records or fails (`Except.error`), the
latter covering a raised exception or malformed output. -/
def Classifier : Type := String → Except Unit (List ModelOutput)

/-- The dictionary returned by `SentimentAnalyzer.analyze`. -/
structure SentimentResult where
  sentiment : String
  confidence : ℚ
deriving DecidableEq, Repr

/-- `SentimentAnalyzer.analyze` (src/services/sentiment_analyzer.py lines
11-19): truncate to the first 512 characters, call the pipeline, take
element `[0]`, lowercase the label and pass the score through.  Every
failure of the pipeline call — a raised exception, malformed output
(both the `.error` case) or an empty result list (`IndexError` from
`[0]`) — is caught by the `except` clause, which returns the neutral
default.  The function itself never fails. -/
def analyze (classifier : Classifier) (text : String) : SentimentResult :=
  match classifier (text.take 512) with
  | .ok (result :: _) => ⟨lowerStr result.label, result.score⟩
  | .ok [] => ⟨"neutral", 0⟩
  | .error _ => ⟨"neutral", 0⟩

/-- A Python exception escaping the `save_article` handler. -/
inductive PyError
  | attributeError
  | keyError (field : String)
deriving DecidableEq, Repr

/-- `safe_parse_iso` (src/app.py lines 72-76): try `parser.isoparse`; the
bare `except` clause then evaluates `datetime.now(datetime.timezone.utc)`,
but `datetime` here is the *class* imported by
`from datetime import datetime`, which has no `timezone` attribute, so the
fallback itself raises `AttributeError`.  The external `dateutil` parser is
the oracle `isoparse`; `none` means it raised. -/
def safe_parse_iso (isoparse : String → Option Int) (date_str : String) :
    Except PyError Int :=
  match isoparse date_str with
  | some dt => .ok dt
  | none => .error .attributeError

/-- A JSON value appearing in the handler's response bodies. -/
inductive JVal
  | b (x : Bool)
  | s (x : String)
  | q (x : ℚ)
deriving DecidableEq, Repr

/-- The outcome of one `save_article` request.  `unhandled e` is an
exception escaping the handler: Flask maps `AttributeError` to a 500
error page and the `BadRequestKeyError` subclass of `KeyError` (raised by
`request.form[...]` on a missing field) to a 400 page. -/
inductive SaveResponse
  | ok (body : List (String × JVal))
  | conflict
  | sentimentFailed
  | dbError
  | unhandled (e : PyError)
deriving DecidableEq, Repr

/-- HTTP status of a `SaveResponse`. -/
def status : SaveResponse → Nat
  | .ok _ => 200
  | .conflict => 409
  | .sentimentFailed => 500
  | .dbError => 500
  | .unhandled .attributeError => 500
  | .unhandled (.keyError _) => 400

/-- The keys of the JSON object of a 200 response (empty for the other
responses). -/
def responseKeys : SaveResponse → List String
  | .ok body => body.map Prod.fst
  | _ => []

/-- The form fields of a save request; `none` means the field is absent,
so that `request.form[...]` raises `KeyError`. -/
structure Form where
  published_at : Option String
  url : Option String
  title : Option String
  description : Option String
  source : Option String

/-- The dedup lookup
`SavedArticle.query.filter_by(user_id=..., article_id=...).first()`
(src/app.py lines 297-300). -/
def existing (uid : Nat) (aid : String) (store : List SavedArticle) :
    Option SavedArticle :=
  store.find? (fun a => a.user_id == uid && a.article_id == aid)

/-- The JSON body of the 200 response (src/app.py lines 316-322).  Note
the key is `article_id`, exactly as written in the code. -/
def successBody (a : SavedArticle) : List (String × JVal) :=
  [("success", .b true),
   ("message", .s "Article saved to your feed!"),
   ("sentiment", .s a.sentiment),
   ("confidence", .q a.confidence),
   ("article_id", .s a.article_id)]

/-- Response plus resulting store contents of one request. -/
structure SaveOutcome where
  response : SaveResponse
  store : List SavedArticle
deriving DecidableEq, Repr

/-- The active `save_article` handler (src/app.py lines 263-329).

Oracles: `isoparse` is the external date parser; `pipelineInit` is the
`SentimentAnalyzer()` construction, which loads the model and may raise;
`commitOk` is whether `db.session.commit()` succeeds (`false` triggers the
`db.session.rollback()` branch); `now` is the database `now()` used for
the `added_at` column default.

Control flow, as in the source: the `published_at` parse is wrapped in
`try/except`, but both the `except` clause inside `safe_parse_iso` and
the handler's own `except` clause evaluate
`datetime.now(datetime.timezone.utc)`, which raises `AttributeError`, so
a parse failure (or a missing `published_at` field) escapes the handler.
Then the `article_data` dict is built, raising `KeyError` on the first
missing field among url, title, description, source; then the sentiment
block runs (`analyze` itself never raises, so only a failing
`SentimentAnalyzer()` construction reaches the 500 branch); then the
dedup check; then the insert. -/
def save_article (isoparse : String → Option Int)
    (pipelineInit : Except Unit Classifier) (commitOk : Bool) (now : Int)
    (uid : Nat) (form : Form) (store : List SavedArticle) : SaveOutcome :=
  let pa : Except PyError Int :=
    match form.published_at with
    | none => .error .attributeError
    | some s =>
      match safe_parse_iso isoparse s with
      | .ok dt => .ok dt
      | .error _ => .error .attributeError
  match pa with
  | .error e => ⟨.unhandled e, store⟩
  | .ok published_at =>
    match form.url with
    | none => ⟨.unhandled (.keyError "url"), store⟩
    | some url =>
      match form.title with
      | none => ⟨.unhandled (.keyError "title"), store⟩
      | some title =>
        match form.description with
        | none => ⟨.unhandled (.keyError "description"), store⟩
        | some description =>
          match form.source with
          | none => ⟨.unhandled (.keyError "source"), store⟩
          | some source =>
            let article_id := py_slice_last url 15
            match pipelineInit with
            | .error _ => ⟨.sentimentFailed, store⟩
            | .ok classifier =>
              let sres := analyze classifier (title ++ " " ++ description)
              match existing uid article_id store with
              | some _ => ⟨.conflict, store⟩
              | none =>
                if commitOk then
                  let new_article : SavedArticle :=
                    { user_id := uid, article_id := article_id,
                      title := title, description := some description,
                      url := some url, source := some source,
                      published_at := some published_at, added_at := now,
                      sentiment := sres.sentiment,
                      confidence := sres.confidence }
                  ⟨.ok (successBody new_article), store ++ [new_article]⟩
                else
                  ⟨.dbError, store⟩

/-- The row filter applied by `personal_feed` when a search term is
present: `title ILIKE '%q%' OR description ILIKE '%q%'` (src/app.py
lines 339-342).  A `NULL` description never matches in SQL, hence the
`none` case. -/
def feedFilter (q : String) (a : SavedArticle) : Bool :=
  ilike a.title q ||
    (match a.description with
     | some d => ilike d q
     | none => false)

/-- `ORDER BY added_at DESC`: row `a` may precede row `b`. -/
def recentFirst (a b : SavedArticle) : Prop := b.added_at ≤ a.added_at

instance : DecidableRel recentFirst :=
  fun a b => inferInstanceAs (Decidable (b.added_at ≤ a.added_at))

instance : IsTotal SavedArticle recentFirst :=
  ⟨fun a b => Int.le_total b.added_at a.added_at⟩

instance : IsTrans SavedArticle recentFirst :=
  ⟨fun _ _ _ h1 h2 => le_trans h2 h1⟩

/-- The `/feed` handler `personal_feed` (src/app.py lines 331-348): filter
the user's rows, apply the search filter only when the term is non-empty
(Python string truthiness), and order by `added_at` descending.  A
relational `ORDER BY` fixes only the relation, not the order of ties;
`insertionSort` is one realisation of it. -/
def personal_feed (uid : Nat) (search_query : String)
    (store : List SavedArticle) : List SavedArticle :=
  let base := store.filter (fun a => a.user_id == uid)
  if search_query == "" then
    List.insertionSort recentFirst base
  else
    List.insertionSort recentFirst (base.filter (feedFilter search_query))

/-- One declared column of a SQLAlchemy model. -/
structure ColumnSpec where
  name : String
  primary_key : Bool
  unique : Bool
  nullable : Bool
deriving DecidableEq, Repr

/-- The columns of the `SavedArticle` model exactly as declared
(src/app.py lines 55-68): no `unique=True` on any column.  SQLAlchemy
columns are nullable by default except primary keys. -/
def savedArticleColumns : List ColumnSpec :=
  [⟨"id", true, false, false⟩,
   ⟨"user_id", false, false, false⟩,
   ⟨"article_id", false, false, false⟩,
   ⟨"title", false, false, false⟩,
   ⟨"description", false, false, true⟩,
   ⟨"url", false, false, true⟩,
   ⟨"source", false, false, true⟩,
   ⟨"published_at", false, false, true⟩,
   ⟨"added_at", false, false, true⟩,
   ⟨"sentiment", false, false, true⟩,
   ⟨"confidence", false, false, true⟩]

/-- Table-level constraints of `SavedArticle`: the model declares no
`__table_args__`, hence no `UniqueConstraint`. -/
def savedArticleUniqueConstraints : List (List String) := []

/-- The columns of the `User` model (src/app.py lines 38-41), kept for
contrast: `username` *does* carry `unique=True`, showing that the
embedding records uniqueness where the source declares it. -/
def userColumns : List ColumnSpec :=
  [⟨"id", true, false, false⟩,
   ⟨"username", false, true, false⟩,
   ⟨"password", false, false, false⟩]

/-- A pandas cell: the summaries CSV holds strings, the index-assigned
`id` column holds integers. -/
inductive PdCell
  | i (n : Int)
  | s (t : String)
deriving DecidableEq, Repr

/-- A pandas dataframe: column names plus row-major cells. -/
structure DataFrame where
  cols : List String
  rows : List (List PdCell)
deriving DecidableEq, Repr

/-- Position of a column name in a column list. -/
def colIndex (name : String) : List String → Option Nat
  | [] => none
  | c :: cs => if c == name then some 0 else (colIndex name cs).map (· + 1)

/-- Append the integer cell `i`, `i+1`, ... to successive rows. -/
def appendIdCells (i : Nat) : List (List PdCell) → List (List PdCell)
  | [] => []
  | r :: rs => (r ++ [.i i]) :: appendIdCells (i + 1) rs

/-- Overwrite position `j` of successive rows with `i`, `i+1`, ... -/
def setIdCells (j : Nat) (i : Nat) : List (List PdCell) → List (List PdCell)
  | [] => []
  | r :: rs => r.set j (.i i) :: setIdCells j (i + 1) rs

/-- The pandas assignment `summaries_df['id'] = summaries_df.index`
executed by the `dashboard` handler (src/app.py line 149): overwrite the
`id` column with the row index if it exists, otherwise add it as a new
column. -/
def setIdToIndex (df : DataFrame) : DataFrame :=
  match colIndex "id" df.cols with
  | some j => ⟨df.cols, setIdCells j 0 df.rows⟩
  | none => ⟨df.cols ++ ["id"], appendIdCells 0 df.rows⟩

/-- Effect of one `/dashboard` request (src/app.py lines 143-163) on the
module-level `summaries_df`: the handler assigns
`summaries_df['id'] = summaries_df.index` and otherwise only reads state
(rendering and comment loading do not touch the dataframe). -/
def dashboard (df : DataFrame) : DataFrame := setIdToIndex df

/-! ## Helper lemmas -/

lemma isPrefixL_iff (p : List Char) : ∀ l, isPrefixL p l = true ↔ ∃ t, l = p ++ t := by
  induction p with
  | nil =>
    intro l
    simp [isPrefixL]
  | cons a as ih =>
    intro l
    cases l with
    | nil => simp [isPrefixL]
    | cons b bs =>
      simp only [isPrefixL, Bool.and_eq_true, beq_iff_eq, ih, List.cons_append]
      constructor
      · rintro ⟨rfl, t, rfl⟩
        exact ⟨t, rfl⟩
      · rintro ⟨t, h⟩
        injection h with h1 h2
        exact ⟨h1.symm, t, h2⟩

lemma isSubL_iff (p : List Char) : ∀ l, isSubL p l = true ↔ ∃ pre post, l = pre ++ p ++ post := by
  intro l
  induction l with
  | nil =>
    show isPrefixL p [] = true ↔ _
    rw [isPrefixL_iff]
    constructor
    · rintro ⟨t, h⟩
      exact ⟨[], t, by simpa using h⟩
    · rintro ⟨pre, post, h⟩
      have hp : p = [] := by
        have hl := congrArg List.length h
        simp at hl
        have hz : p.length = 0 := by omega
        exact List.length_eq_zero.mp hz
      exact ⟨[], by simp [hp]⟩
  | cons c t ih =>
    simp only [isSubL, Bool.or_eq_true, isPrefixL_iff, ih]
    constructor
    · rintro (⟨s, hs⟩ | ⟨pre, post, hp⟩)
      · exact ⟨[], s, by simpa using hs⟩
      · exact ⟨c :: pre, post, by simp [hp]⟩
    · rintro ⟨pre, post, hp⟩
      cases pre with
      | nil => exact Or.inl ⟨post, by simpa using hp⟩
      | cons x xs =>
        right
        refine ⟨xs, post, ?_⟩
        simpa using congrArg List.tail hp

lemma set_append_length {α : Type} (l : List α) (a b : α) :
    (l ++ [a]).set l.length b = l ++ [b] := by
  induction l with
  | nil => rfl
  | cons x xs ih => simp [List.set, ih]

lemma find?_append_of_none {α : Type} {p : α → Bool} {l : List α}
    (h : l.find? p = none) (r : List α) :
    (l ++ r).find? p = r.find? p := by
  rw [List.find?_append, h, Option.none_or]

lemma colIndex_append_self (name : String) (cols : List String) (h : name ∉ cols) :
    colIndex name (cols ++ [name]) = some cols.length := by
  induction cols with
  | nil => simp [colIndex]
  | cons c cs ih =>
    have hc : (c == name) = false := by
      refine beq_eq_false_iff_ne.mpr ?_
      intro e
      exact h (by simp [e])
    simp only [List.cons_append, colIndex, hc]
    simp [ih (fun hm => h (List.mem_cons_of_mem _ hm))]

lemma setIdCells_appendIdCells (n : Nat) (rows : List (List PdCell)) :
    ∀ i, (∀ r ∈ rows, r.length = n) →
      setIdCells n i (appendIdCells i rows) = appendIdCells i rows := by
  induction rows with
  | nil => intro i _; rfl
  | cons r rs ih =>
    intro i h
    have hr : r.length = n := h r (by simp)
    have h1 : (r ++ [PdCell.i (i : Int)]).set n (PdCell.i (i : Int))
        = r ++ [PdCell.i (i : Int)] := by
      rw [← hr]
      exact set_append_length r _ _
    simp only [appendIdCells, setIdCells, h1,
      ih (i + 1) (fun x hx => h x (by simp [hx]))]

/-- The row that a successful `save_article` inserts. -/
def newRow (uid : Nat) (url title desc src : String) (d now : Int)
    (sres : SentimentResult) : SavedArticle :=
  { user_id := uid, article_id := py_slice_last url 15, title := title,
    description := some desc, url := some url, source := some src,
    published_at := some d, added_at := now,
    sentiment := sres.sentiment, confidence := sres.confidence }

lemma save_article_success (isoparse : String → Option Int) (c : Classifier)
    (now : Int) (uid : Nat) (pub url title desc src : String) (d : Int)
    (store : List SavedArticle)
    (hiso : isoparse pub = some d)
    (hclean : existing uid (py_slice_last url 15) store = none) :
    save_article isoparse (.ok c) true now uid
        ⟨some pub, some url, some title, some desc, some src⟩ store
      = ⟨.ok (successBody
              (newRow uid url title desc src d now
                (analyze c (title ++ " " ++ desc)))),
         store ++ [newRow uid url title desc src d now
                    (analyze c (title ++ " " ++ desc))]⟩ := by
  unfold save_article
  simp [safe_parse_iso, hiso, hclean, newRow]

lemma save_article_conflict (isoparse : String → Option Int) (c : Classifier)
    (commitOk : Bool) (now : Int) (uid : Nat) (pub url title desc src : String)
    (d : Int) (store : List SavedArticle) (e : SavedArticle)
    (hiso : isoparse pub = some d)
    (hex : existing uid (py_slice_last url 15) store = some e) :
    save_article isoparse (.ok c) commitOk now uid
        ⟨some pub, some url, some title, some desc, some src⟩ store
      = ⟨.conflict, store⟩ := by
  unfold save_article
  simp only [safe_parse_iso, hiso, hex]

lemma existing_append_self (uid : Nat) (aid : String)
    (store : List SavedArticle) (row : SavedArticle)
    (hclean : existing uid aid store = none)
    (hu : row.user_id = uid) (ha : row.article_id = aid) :
    existing uid aid (store ++ [row]) = some row := by
  unfold existing at *
  rw [find?_append_of_none hclean]
  simp [List.find?, hu, ha]

/-- A pipeline oracle returning one positive record, used in witnesses. -/
def demoClassifier : Classifier := fun _ => .ok [⟨"POSITIVE", 1⟩]

/-- A date-parser oracle accepting exactly one well-formed timestamp. -/
def demoIso : String → Option Int :=
  fun s => if s == "2024-05-01T10:00:00Z" then some 1714557600 else none

/-- C4: the derived article identifier used by `save_article` is the
last-15-character suffix of the url (a suffix of length `min 15 |url|`);
for urls shorter than 15 characters it is well-defined and equals the
whole url; and any row `save_article` adds to the store carries exactly
this identifier. -/
theorem C4_derived_id (url : String) :
    (∃ pre, url.data = pre ++ (py_slice_last url 15).data) ∧
    (py_slice_last url 15).data.length = min 15 url.data.length ∧
    (url.data.length < 15 → py_slice_last url 15 = url) ∧
    (∀ (isoparse : String → Option Int) (pipelineInit : Except Unit Classifier)
        (commitOk : Bool) (now : Int) (uid : Nat)
        (pub title desc src : Option String) (store : List SavedArticle)
        (a : SavedArticle),
      a ∈ (save_article isoparse pipelineInit commitOk now uid
            ⟨pub, some url, title, desc, src⟩ store).store →
      a ∈ store ∨ a.article_id = py_slice_last url 15) := by
  refine ⟨⟨url.data.take (url.data.length - 15), ?_⟩, ?_, ?_, ?_⟩
  · show url.data = _ ++ url.data.drop (url.data.length - 15)
    rw [List.take_append_drop]
  · show (url.data.drop (url.data.length - 15)).length = _
    rw [List.length_drop]
    omega
  · intro h
    show String.mk (url.data.drop (url.data.length - 15)) = url
    rw [Nat.sub_eq_zero_of_le (Nat.le_of_lt h), List.drop_zero]
  · intro isoparse pipelineInit commitOk now uid pub title desc src store a ha
    unfold save_article at ha
    repeat' (first | split at ha | dsimp only at ha)
    all_goals first
      | exact Or.inl ha
      | (rcases List.mem_append.mp ha with h | h
         · exact Or.inl h
         · right
           simp only [List.mem_singleton] at h
           subst h
           rfl)

/-- Witness for C4 at the 8-character url "short.io". -/
theorem C4_derived_id_witness : py_slice_last "short.io" 15 = "short.io" :=
  (C4_derived_id "short.io").2.2.1 (by decide)

/-- C7: `SentimentAnalyzer.analyze` depends only on the first 512
characters of its input (silent truncation); on a non-empty pipeline
result it returns the first record's label lowercased with the score
passed through unmodified; and on any failure of the pipeline call — a
raised exception or malformed output (`error`) or an empty result list
(`IndexError`) — it returns the neutral default instead of propagating
the error. -/
theorem C7_analyze_adapter :
    (∀ (c : Classifier) (t1 t2 : String),
        t1.take 512 = t2.take 512 → analyze c t1 = analyze c t2) ∧
    (∀ (c : Classifier) (t : String) (r : ModelOutput)
        (rest : List ModelOutput),
        c (t.take 512) = .ok (r :: rest) →
        analyze c t = ⟨lowerStr r.label, r.score⟩) ∧
    (∀ (c : Classifier) (t : String),
        c (t.take 512) = .error () → analyze c t = ⟨"neutral", 0⟩) ∧
    (∀ (c : Classifier) (t : String),
        c (t.take 512) = .ok [] → analyze c t = ⟨"neutral", 0⟩) := by
  refine ⟨?_, ?_, ?_, ?_⟩
  · intro c t1 t2 h
    unfold analyze
    rw [h]
  · intro c t r rest h
    unfold analyze
    rw [h]
  · intro c t h
    unfold analyze
    rw [h]
  · intro c t h
    unfold analyze
    rw [h]

/-- Witness for C7: the demo pipeline labels text "POSITIVE" with score 1
and `analyze` reports it lowercased. -/
theorem C7_analyze_adapter_witness :
    analyze demoClassifier "Great news everyone" = ⟨"positive", 1⟩ := by
  have h := C7_analyze_adapter.2.1 demoClassifier "Great news everyone"
    ⟨"POSITIVE", 1⟩ [] rfl
  rw [h]
  decide

/-- C3 (code bug): the spec requires the date-parsing step never to raise
and to substitute the current UTC time on failure, but for any
`published_at` string the ISO parser rejects, both fallback paths
evaluate `datetime.now(datetime.timezone.utc)` and `datetime.timezone`
does not exist on the class imported by `from datetime import datetime`,
so the handler raises `AttributeError` (a 500, with no row written):
evaluated here on the form field `published_at = "not-a-date"` with a
parser that rejects it. -/
theorem C3_date_fallback_raises :
    safe_parse_iso demoIso "not-a-date" = .error .attributeError ∧
    save_article demoIso (.ok demoClassifier) true 0 1
        ⟨some "not-a-date", some "https://example.com/article/123",
         some "Title", some "Desc", some "CNN"⟩ []
      = ⟨.unhandled .attributeError, []⟩ ∧
    status (.unhandled .attributeError) = 500 := by
  refine ⟨?_, ?_, rfl⟩
  · rfl
  · rfl

/-- C1: with the classifier constructed, the date parsable, the commit
succeeding and no prior row for the derived id, saving the same url twice
for the same user yields one 200 success then one 409 Conflict; the
Conflict leaves the store exactly as the first save left it, and the
store then holds exactly one row keyed by (user, derived id). -/
theorem C1_save_twice (isoparse : String → Option Int) (c : Classifier)
    (now1 now2 : Int) (uid : Nat) (pub url title desc src : String)
    (d : Int) (store : List SavedArticle)
    (hlen : 15 ≤ url.length)
    (hiso : isoparse pub = some d)
    (hclean : existing uid (py_slice_last url 15) store = none) :
    status (save_article isoparse (.ok c) true now1 uid
        ⟨some pub, some url, some title, some desc, some src⟩ store).response
      = 200 ∧
    (save_article isoparse (.ok c) true now2 uid
        ⟨some pub, some url, some title, some desc, some src⟩
        (save_article isoparse (.ok c) true now1 uid
          ⟨some pub, some url, some title, some desc, some src⟩ store).store).response
      = .conflict ∧
    (save_article isoparse (.ok c) true now2 uid
        ⟨some pub, some url, some title, some desc, some src⟩
        (save_article isoparse (.ok c) true now1 uid
          ⟨some pub, some url, some title, some desc, some src⟩ store).store).store
      = (save_article isoparse (.ok c) true now1 uid
          ⟨some pub, some url, some title, some desc, some src⟩ store).store ∧
    ((save_article isoparse (.ok c) true now1 uid
        ⟨some pub, some url, some title, some desc, some src⟩ store).store.filter
      (fun a => a.user_id == uid && a.article_id == py_slice_last url 15)).length
      = 1 := by
  have h1 := save_article_success isoparse c now1 uid pub url title desc src d
    store hiso hclean
  set row := newRow uid url title desc src d now1
    (analyze c (title ++ " " ++ desc)) with hrow
  have hex : existing uid (py_slice_last url 15) (store ++ [row]) = some row :=
    existing_append_self uid (py_slice_last url 15) store row hclean rfl rfl
  have h2 := save_article_conflict isoparse c true now2 uid pub url title desc
    src d (store ++ [row]) row hiso hex
  have hfil : store.filter
      (fun a => a.user_id == uid && a.article_id == py_slice_last url 15) = [] := by
    refine List.filter_eq_nil_iff.mpr ?_
    intro a hmem
    have := List.find?_eq_none.mp hclean a hmem
    simpa using this
  rw [h1]
  refine ⟨rfl, ?_, ?_, ?_⟩
  · rw [h2]
  · rw [h2]
  · rw [List.filter_append, hfil]
    simp [row, newRow]

/-- Witness for C1 at a concrete user, url and store. -/
theorem C1_save_twice_witness :
    status (save_article demoIso (.ok demoClassifier) true 10 1
        ⟨some "2024-05-01T10:00:00Z", some "https://example.com/story/abcde",
         some "T", some "D", some "S"⟩ []).response = 200 :=
  (C1_save_twice demoIso demoClassifier 10 11 1 "2024-05-01T10:00:00Z"
    "https://example.com/story/abcde" "T" "D" "S" 1714557600 []
    (by decide) (by decide) (by decide)).1

/-- A pipeline oracle whose call always raises. -/
def throwingClassifier : Classifier := fun _ => .error ()

/-- C2 counterexample: with a classifier whose *call* raises, the claim
says the save aborts, reports the classification failure and leaves the
store unchanged; instead `analyze` swallows the failure, the save
succeeds (HTTP 200) and one row is persisted with the silently defaulted
neutral/0.0 sentiment. -/
theorem C2_counterexample :
    status (save_article demoIso (.ok throwingClassifier) true 10 1
        ⟨some "2024-05-01T10:00:00Z", some "https://example.com/story/abcde",
         some "T", some "D", some "S"⟩ []).response = 200 ∧
    ((save_article demoIso (.ok throwingClassifier) true 10 1
        ⟨some "2024-05-01T10:00:00Z", some "https://example.com/story/abcde",
         some "T", some "D", some "S"⟩ []).store.map
      (fun a => (a.sentiment, a.confidence))) = [("neutral", 0)] := by
  exact ⟨rfl, rfl⟩

/-- C2 amended: only a failing `SentimentAnalyzer()` construction
(classifier unavailable) aborts the save with a 500 response and an
unchanged store; a failure of the classifier call itself is absorbed by
`analyze`, which returns the neutral default, and the save proceeds. -/
theorem C2_amended (isoparse : String → Option Int) (commitOk : Bool)
    (now : Int) (uid : Nat) (pub url title desc src : String) (d : Int)
    (store : List SavedArticle)
    (hiso : isoparse pub = some d) :
    (save_article isoparse (.error ()) commitOk now uid
        ⟨some pub, some url, some title, some desc, some src⟩ store).response
      = .sentimentFailed ∧
    (save_article isoparse (.error ()) commitOk now uid
        ⟨some pub, some url, some title, some desc, some src⟩ store).store
      = store ∧
    status .sentimentFailed = 500 ∧
    (∀ (c : Classifier) (text : String),
      c (text.take 512) = .error () → analyze c text = ⟨"neutral", 0⟩) := by
  refine ⟨?_, ?_, rfl, ?_⟩
  · unfold save_article
    simp [safe_parse_iso, hiso]
  · unfold save_article
    simp [safe_parse_iso, hiso]
  · intro c text h
    unfold analyze
    rw [h]

/-- Witness for C2 amended at concrete inputs. -/
theorem C2_amended_witness :
    (save_article demoIso (.error ()) true 10 1
        ⟨some "2024-05-01T10:00:00Z", some "https://example.com/story/abcde",
         some "T", some "D", some "S"⟩ []).response = .sentimentFailed :=
  (C2_amended demoIso true 10 1 "2024-05-01T10:00:00Z"
    "https://example.com/story/abcde" "T" "D" "S" 1714557600 [] rfl).1

/-- C5 counterexample: the 200 JSON body's keys are exactly success,
message, sentiment, confidence, article_id — the key `articleId` named
by the claim does not occur. -/
theorem C5_counterexample :
    responseKeys (save_article demoIso (.ok demoClassifier) true 10 1
        ⟨some "2024-05-01T10:00:00Z", some "https://example.com/story/abcde",
         some "T", some "D", some "S"⟩ []).response
      = ["success", "message", "sentiment", "confidence", "article_id"] ∧
    "articleId" ∉ responseKeys (save_article demoIso (.ok demoClassifier)
        true 10 1
        ⟨some "2024-05-01T10:00:00Z", some "https://example.com/story/abcde",
         some "T", some "D", some "S"⟩ []).response := by
  have h : responseKeys (save_article demoIso (.ok demoClassifier) true 10 1
      ⟨some "2024-05-01T10:00:00Z", some "https://example.com/story/abcde",
       some "T", some "D", some "S"⟩ []).response
      = ["success", "message", "sentiment", "confidence", "article_id"] := rfl
  refine ⟨h, ?_⟩
  rw [h]
  decide

/-- C5 amended: the endpoint contract with the success key named
`article_id` (not `articleId`): 200 with JSON keys {success, message,
sentiment, confidence, article_id} and exactly the new row appended on
success; 409 with the store unchanged on conflict; 500 with the store
unchanged on storage failure (rollback, no partial row); 500 with the
store unchanged on classification (constructor) failure. -/
theorem C5_amended (isoparse : String → Option Int) (c : Classifier)
    (now : Int) (uid : Nat) (pub url title desc src : String) (d : Int)
    (store : List SavedArticle)
    (hiso : isoparse pub = some d) :
    (existing uid (py_slice_last url 15) store = none →
      status (save_article isoparse (.ok c) true now uid
          ⟨some pub, some url, some title, some desc, some src⟩ store).response
        = 200 ∧
      responseKeys (save_article isoparse (.ok c) true now uid
          ⟨some pub, some url, some title, some desc, some src⟩ store).response
        = ["success", "message", "sentiment", "confidence", "article_id"] ∧
      (save_article isoparse (.ok c) true now uid
          ⟨some pub, some url, some title, some desc, some src⟩ store).store
        = store ++ [newRow uid url title desc src d now
                     (analyze c (title ++ " " ++ desc))]) ∧
    (∀ e, existing uid (py_slice_last url 15) store = some e →
      ∀ commitOk,
        status (save_article isoparse (.ok c) commitOk now uid
            ⟨some pub, some url, some title, some desc, some src⟩ store).response
          = 409 ∧
        (save_article isoparse (.ok c) commitOk now uid
            ⟨some pub, some url, some title, some desc, some src⟩ store).store
          = store) ∧
    (existing uid (py_slice_last url 15) store = none →
      status (save_article isoparse (.ok c) false now uid
          ⟨some pub, some url, some title, some desc, some src⟩ store).response
        = 500 ∧
      (save_article isoparse (.ok c) false now uid
          ⟨some pub, some url, some title, some desc, some src⟩ store).store
        = store) ∧
    (∀ commitOk,
      status (save_article isoparse (.error ()) commitOk now uid
          ⟨some pub, some url, some title, some desc, some src⟩ store).response
        = 500 ∧
      (save_article isoparse (.error ()) commitOk now uid
          ⟨some pub, some url, some title, some desc, some src⟩ store).store
        = store) := by
  refine ⟨?_, ?_, ?_, ?_⟩
  · intro hclean
    rw [save_article_success isoparse c now uid pub url title desc src d store
      hiso hclean]
    exact ⟨rfl, rfl, rfl⟩
  · intro e hex commitOk
    rw [save_article_conflict isoparse c commitOk now uid pub url title desc
      src d store e hiso hex]
    exact ⟨rfl, rfl⟩
  · intro hclean
    constructor
    · unfold save_article
      simp [safe_parse_iso, hiso, hclean, status]
    · unfold save_article
      simp [safe_parse_iso, hiso, hclean]
  · intro commitOk
    constructor
    · unfold save_article
      simp [safe_parse_iso, hiso, status]
    · unfold save_article
      simp [safe_parse_iso, hiso]

/-- Witness for C5 amended: concrete success-path key list. -/
theorem C5_amended_witness :
    responseKeys (save_article demoIso (.ok demoClassifier) true 11 3
        ⟨some "2024-05-01T10:00:00Z", some "https://example.com/story/vwxyz",
         some "T2", some "D2", some "S2"⟩ []).response
      = ["success", "message", "sentiment", "confidence", "article_id"] :=
  ((C5_amended demoIso demoClassifier 11 3 "2024-05-01T10:00:00Z"
    "https://example.com/story/vwxyz" "T2" "D2" "S2" 1714557600 [] rfl).1 rfl).2.1

/-- C10: a save request missing any of the form fields url, title,
description, source fails — an exception escapes the handler — without
invoking the classifier and without touching the store: the outcome does
not depend on the classifier, the commit or the clock oracles, and the
store is returned unchanged. -/
theorem C10_missing_field (isoparse : String → Option Int)
    (p1 p2 : Except Unit Classifier) (b1 b2 : Bool) (n1 n2 : Int)
    (uid : Nat) (form : Form) (store : List SavedArticle)
    (h : form.url = none ∨ form.title = none ∨ form.description = none ∨
         form.source = none) :
    (∃ e, (save_article isoparse p1 b1 n1 uid form store).response
        = .unhandled e) ∧
    (save_article isoparse p1 b1 n1 uid form store).store = store ∧
    save_article isoparse p1 b1 n1 uid form store
      = save_article isoparse p2 b2 n2 uid form store := by
  obtain ⟨pub, u, t, dsc, src⟩ := form
  have key : ∃ e, ∀ (p : Except Unit Classifier) (b : Bool) (n : Int),
      save_article isoparse p b n uid ⟨pub, u, t, dsc, src⟩ store
        = ⟨.unhandled e, store⟩ := by
    rcases pub with _ | s
    · exact ⟨.attributeError, fun p b n => rfl⟩
    · rcases hio : isoparse s with _ | dt
      · refine ⟨.attributeError, fun p b n => ?_⟩
        unfold save_article
        simp only [safe_parse_iso, hio]
      · rcases u with _ | u
        · refine ⟨.keyError "url", fun p b n => ?_⟩
          unfold save_article
          simp only [safe_parse_iso, hio]
        rcases t with _ | t
        · refine ⟨.keyError "title", fun p b n => ?_⟩
          unfold save_article
          simp only [safe_parse_iso, hio]
        rcases dsc with _ | dsc
        · refine ⟨.keyError "description", fun p b n => ?_⟩
          unfold save_article
          simp only [safe_parse_iso, hio]
        rcases src with _ | src
        · refine ⟨.keyError "source", fun p b n => ?_⟩
          unfold save_article
          simp only [safe_parse_iso, hio]
        simp at h
  obtain ⟨e, he⟩ := key
  rw [he p1 b1 n1, he p2 b2 n2]
  exact ⟨⟨e, rfl⟩, rfl, rfl⟩

/-- Witness for C10 with the url field absent. -/
theorem C10_missing_field_witness :
    (save_article demoIso (.ok demoClassifier) true 10 1
        ⟨some "2024-05-01T10:00:00Z", none, some "T", some "D", some "S"⟩
        []).store = [] :=
  (C10_missing_field demoIso (.ok demoClassifier) (.error ()) true false 10 11
    1 ⟨some "2024-05-01T10:00:00Z", none, some "T", some "D", some "S"⟩ []
    (Or.inl rfl)).2.1

lemma colIndex_none (name : String) (cols : List String) (h : name ∉ cols) :
    colIndex name cols = none := by
  induction cols with
  | nil => rfl
  | cons c cs ih =>
    have hc : (c == name) = false := by
      refine beq_eq_false_iff_ne.mpr ?_
      intro e
      exact h (by simp [e])
    simp only [colIndex, hc]
    simp [ih (fun hm => h (List.mem_cons_of_mem _ hm))]

/-- C6: the feed query returns (i) a permutation of exactly the user's
rows passing the search filter (a no-op filter for the empty term),
(ii) sorted most-recently-added first, and (iii) the filter holds exactly
when the lowercased search term occurs as a contiguous substring of the
lowercased title, or of the lowercased description when one is present
(OR across the two fields; a missing description never matches). -/
theorem C6_personal_feed (uid : Nat) (q : String) (store : List SavedArticle) :
    List.Perm (personal_feed uid q store)
      (store.filter
        (fun a => a.user_id == uid && (q == "" || feedFilter q a))) ∧
    List.Sorted recentFirst (personal_feed uid q store) ∧
    (∀ a : SavedArticle, feedFilter q a = true ↔
      ((∃ pre post, (lowerStr a.title).data
          = pre ++ (lowerStr q).data ++ post) ∨
       (∃ d pre post, a.description = some d ∧
          (lowerStr d).data = pre ++ (lowerStr q).data ++ post))) := by
  refine ⟨?_, ?_, ?_⟩
  · unfold personal_feed
    cases hq : (q == "") with
    | true =>
      simp only [eq_self_iff_true, if_true, Bool.true_or, Bool.and_true]
      exact List.perm_insertionSort _ _
    | false =>
      simp only [Bool.false_eq_true, if_false, Bool.false_or]
      have hfun : List.filter (feedFilter q)
            (List.filter (fun a => a.user_id == uid) store)
          = store.filter (fun a => a.user_id == uid && feedFilter q a) := by
        rw [List.filter_filter]
        apply List.filter_congr
        intro a _
        exact Bool.and_comm _ _
      rw [hfun]
      exact List.perm_insertionSort _ _
  · unfold personal_feed
    split
    · exact List.sorted_insertionSort _ _
    · exact List.sorted_insertionSort _ _
  · intro a
    rcases hd : a.description with _ | d
    · unfold feedFilter ilike
      rw [hd]
      simp only [Bool.or_false]
      rw [isSubL_iff]
      constructor
      · intro h
        exact Or.inl h
      · rintro (h | ⟨d2, pre, post, hd2, h2⟩)
        · exact h
        · cases hd2
    · unfold feedFilter ilike
      rw [hd]
      simp only [Bool.or_eq_true]
      rw [isSubL_iff, isSubL_iff]
      constructor
      · rintro (h | h)
        · exact Or.inl h
        · obtain ⟨pre, post, h⟩ := h
          exact Or.inr ⟨d, pre, post, rfl, h⟩
      · rintro (h | ⟨d2, pre, post, hd2, h2⟩)
        · exact Or.inl h
        · injection hd2 with hdd
          subst hdd
          exact Or.inr ⟨pre, post, h2⟩

/-- A concrete three-row store: two rows for user 1 (the spec's
"Election Results" / "Sports Recap" example) and one for user 2. -/
def demoStore : List SavedArticle :=
  [⟨1, "id1", "Election Results", some "vote tally", none, none, none, 5,
    "neutral", 0⟩,
   ⟨1, "id2", "Sports Recap", some "game scores", none, none, none, 9,
    "neutral", 0⟩,
   ⟨2, "id3", "Election Results", some "other user", none, none, none, 7,
    "neutral", 0⟩]

/-- Witness for C6: the ordering guarantee at a concrete feed query. -/
theorem C6_personal_feed_witness :
    List.Sorted recentFirst (personal_feed 1 "election" demoStore) :=
  (C6_personal_feed 1 "election" demoStore).2.1

/-- C8 counterexample: the `SavedArticle` model declares no uniqueness
constraint at all — no column carries `unique=True` and there is no
table-level constraint — so in particular none on (user_id, article_id).
For contrast, the embedding does record declared uniqueness where the
source has it: `User.username`. -/
theorem C8_counterexample :
    savedArticleUniqueConstraints = [] ∧
    savedArticleColumns.filter (fun c => c.unique) = [] ∧
    userColumns.filter (fun c => c.unique)
      = [⟨"username", false, true, false⟩] := by
  exact ⟨rfl, rfl, rfl⟩

/-- C8 amended: the schema declares no uniqueness constraint on
(user_id, article_id); per-user uniqueness is enforced only by
`save_article`'s application-level check-then-insert, which reports a
conflict and leaves the store unchanged whenever a row with the same
(user, derived id) is already present. -/
theorem C8_amended (isoparse : String → Option Int) (c : Classifier)
    (commitOk : Bool) (now : Int) (uid : Nat)
    (pub url title desc src : String) (d : Int)
    (store : List SavedArticle) (e : SavedArticle)
    (hiso : isoparse pub = some d)
    (hex : existing uid (py_slice_last url 15) store = some e) :
    savedArticleColumns.filter (fun col => col.unique) = [] ∧
    savedArticleUniqueConstraints = [] ∧
    save_article isoparse (.ok c) commitOk now uid
        ⟨some pub, some url, some title, some desc, some src⟩ store
      = ⟨.conflict, store⟩ :=
  ⟨rfl, rfl, save_article_conflict isoparse c commitOk now uid pub url title
    desc src d store e hiso hex⟩

/-- A row already saved by user 1 for the demo url. -/
def demoRow : SavedArticle :=
  ⟨1, py_slice_last "https://example.com/story/abcde" 15, "T", some "D",
   some "https://example.com/story/abcde", some "S", some 1714557600, 10,
   "positive", 1⟩

/-- Witness for C8 amended: re-saving the demo url conflicts. -/
theorem C8_amended_witness :
    save_article demoIso (.ok demoClassifier) true 10 1
        ⟨some "2024-05-01T10:00:00Z", some "https://example.com/story/abcde",
         some "T", some "D", some "S"⟩ [demoRow]
      = ⟨.conflict, [demoRow]⟩ :=
  (C8_amended demoIso demoClassifier true 10 1 "2024-05-01T10:00:00Z"
    "https://example.com/story/abcde" "T" "D" "S" 1714557600 [demoRow] demoRow
    rfl rfl).2.2

/-- The concrete two-column dataframe used to exhibit the dashboard
mutation. -/
def summariesExample : DataFrame :=
  ⟨["title", "summary"], [[.s "a", .s "b"], [.s "c", .s "d"]]⟩

/-- C9 counterexample: one `dashboard` request mutates the module-level
dataframe — it appends an `id` column holding the row index — so the
dataset is not held read-only after startup. -/
theorem C9_counterexample :
    dashboard summariesExample ≠ summariesExample ∧
    (dashboard summariesExample).cols = ["title", "summary", "id"] ∧
    (dashboard summariesExample).rows
      = [[.s "a", .s "b", .i 0], [.s "c", .s "d", .i 1]] := by
  refine ⟨?_, rfl, rfl⟩
  decide

/-- C9 amended: the dataset is loaded once and never reloaded, but it is
not strictly read-only: each `dashboard` request assigns an `id` column
holding the row index (appending the column on the first request); the
assignment is idempotent, so the dataframe is fixed after the first
request; no other handler writes to it. -/
theorem C9_amended (df : DataFrame)
    (hwf : ∀ r ∈ df.rows, r.length = df.cols.length)
    (hid : "id" ∉ df.cols) :
    (dashboard df).cols = df.cols ++ ["id"] ∧
    (dashboard df).rows = appendIdCells 0 df.rows ∧
    dashboard (dashboard df) = dashboard df := by
  have h1 : dashboard df = ⟨df.cols ++ ["id"], appendIdCells 0 df.rows⟩ := by
    unfold dashboard setIdToIndex
    rw [colIndex_none "id" df.cols hid]
  refine ⟨by rw [h1], by rw [h1], ?_⟩
  rw [h1]
  unfold dashboard setIdToIndex
  rw [colIndex_append_self "id" df.cols hid]
  dsimp only
  rw [setIdCells_appendIdCells df.cols.length df.rows 0 hwf]

/-- Witness for C9 amended at the concrete dataframe. -/
theorem C9_amended_witness :
    (dashboard summariesExample).cols = ["title", "summary"] ++ ["id"] :=
  (C9_amended summariesExample (by decide) (by decide)).1
